import Mathlib

/-!
Verification of the Ruuvi gateway/station proxy server's protocol decoding
and normalization layer, shallowly embedded from the Go source.

Bytes are modelled as `Nat` values (always `< 256` when produced by hex
decoding); 16-bit machine arithmetic carries an explicit `% 65536`, and
signed 16-bit results are interpreted through `toI16`.  Go `float64`
values are modelled as exact rationals (`ℚ`); the conversion formulas of
the source involve only small decimal constants, so the rational model
captures them exactly.
-/

namespace Ruuvi

/-- Two's-complement interpretation of a 16-bit word as an `Int`
(the value of a Go `int16` holding the bits of `n % 65536`). -/
def toI16 (n : Nat) : Int :=
  if n % 65536 < 32768 then ((n % 65536 : Nat) : Int)
  else ((n % 65536 : Nat) : Int) - 65536

/-- The distinct failure cases of `decodeBluetoothData`.  The Go source
returns distinct formatted error strings; we model them as distinct
constructors, keeping the data each message carries. -/
inductive DecodeErr where
  /-- `hex.DecodeString` failed (odd length or non-hex digit). -/
  | invalidHex : DecodeErr
  /-- "not enough data for index %d": a read past the end of input. -/
  | truncated (idx : Nat) : DecodeErr
  /-- length byte differs from 27. -/
  | badLength (got : Nat) : DecodeErr
  /-- AD type byte differs from 0xFF. -/
  | badAdType (got : Nat) : DecodeErr
  /-- manufacturer ID differs from 0x0499. -/
  | badManufacturer (got : Nat) : DecodeErr
  /-- "got %d bytes for payload, while length indicates %d". -/
  | badPayloadLen (got want : Nat) : DecodeErr
  /-- "got format version %d, wanted 5". -/
  | badFormat (got : Nat) : DecodeErr
  deriving DecidableEq, Repr

/-- `DataFormat5` from the source: decoded values of a format 5 message. -/
structure DataFormat5 where
  FormatVersion : Nat
  /-- Temperature in 0.005 degrees (Go `int16`). -/
  Temperature : Int
  /-- Humidity in 0.0025% (Go `uint16`). -/
  Humidity : Nat
  /-- Pressure in 1 Pa units with offset -50000 Pa (Go `uint16`). -/
  Pressure : Nat
  AccelX : Int
  AccelY : Int
  AccelZ : Int
  /-- Packed power word (11-bit voltage + 5-bit tx power). -/
  CodedPower : Nat
  Voltage : Nat
  TxPower : Nat
  MovementCounter : Nat
  MeasureSequence : Nat
  /-- 48-bit MAC address, 6 raw bytes. -/
  MacAddress : List Nat
  deriving DecidableEq, Repr

/-- `BluetoothAdvertisement` from the source.  The Go field `Type` is
renamed `AdType` (`Type` is reserved in Lean). -/
structure BluetoothAdvertisement where
  Flags : Nat × Nat × Nat
  Length : Nat
  AdType : Nat
  Manufacturer : Nat
  Payload : List Nat
  Data5 : DataFormat5
  deriving DecidableEq, Repr

/-- The source's `consumeByte` closure: pre-increments a cursor, fails if
the input is exhausted, otherwise returns the byte and the next cursor.
Embedded with the cursor passed explicitly (source cursor `lastIdx`
starts at -1 and pre-increments; here `i` is the index about to be read). -/
def consumeByte (decoded : List Nat) (i : Nat) : Except DecodeErr (Nat × Nat) :=
  if decoded.length ≤ i then .error (.truncated i)
  else .ok (decoded.getD i 0, i + 1)

/-- The source's `consumeBEuint16` (comment "Big endian"; it actually
computes `uint16(b1) + 256*uint16(b2)`, i.e. first byte least
significant).  Names follow the source. -/
def consumeBEuint16 (decoded : List Nat) (i : Nat) : Except DecodeErr (Nat × Nat) :=
  match consumeByte decoded i with
  | .error e => .error e
  | .ok (b1, j) =>
    match consumeByte decoded j with
    | .error e => .error e
    | .ok (b2, k) => .ok ((b1 + 256 * b2) % 65536, k)

/-- The source's `consumeLEuint16` (comment "Little endian"; it actually
computes `256*uint16(b1) + uint16(b2)`, i.e. first byte most
significant).  Names follow the source. -/
def consumeLEuint16 (decoded : List Nat) (i : Nat) : Except DecodeErr (Nat × Nat) :=
  match consumeByte decoded i with
  | .error e => .error e
  | .ok (b1, j) =>
    match consumeByte decoded j with
    | .error e => .error e
    | .ok (b2, k) => .ok ((256 * b1 + b2) % 65536, k)

/-- The source's `consumeLEint16`: `256*int16(b1) + int16(b2)` with Go's
wrapping `int16` arithmetic, i.e. the two's-complement value of
`256*b1 + b2`. -/
def consumeLEint16 (decoded : List Nat) (i : Nat) : Except DecodeErr (Int × Nat) :=
  match consumeByte decoded i with
  | .error e => .error e
  | .ok (b1, j) =>
    match consumeByte decoded j with
    | .error e => .error e
    | .ok (b2, k) => .ok (toI16 (256 * b1 + b2), k)

/-- The byte-level body of the source's `decodeBluetoothData`, operating
on the hex-decoded byte sequence: sequential consumption with structural
checks, mirroring the source statement by statement. -/
def decodeBytes (decoded : List Nat) : Except DecodeErr BluetoothAdvertisement :=
  -- Parse flags
  match consumeByte decoded 0 with
  | .error e => .error e
  | .ok (f0, i0) =>
  match consumeByte decoded i0 with
  | .error e => .error e
  | .ok (f1, i1) =>
  match consumeByte decoded i1 with
  | .error e => .error e
  | .ok (f2, i2) =>
  -- Parse length
  match consumeByte decoded i2 with
  | .error e => .error e
  | .ok (len, i3) =>
  if len ≠ 27 then .error (DecodeErr.badLength len) else
  -- Parse type
  match consumeByte decoded i3 with
  | .error e => .error e
  | .ok (adTy, i4) =>
  if adTy ≠ 255 then .error (DecodeErr.badAdType adTy) else
  -- Parse manufacturer
  match consumeBEuint16 decoded i4 with
  | .error e => .error e
  | .ok (manufacturer, i5) =>
  if manufacturer ≠ 1177 then .error (DecodeErr.badManufacturer manufacturer) else
  -- Get the rest of the payload (a copy, does not advance the cursor)
  let payload := decoded.drop i5
  if payload.length + 3 ≠ len then .error (DecodeErr.badPayloadLen (payload.length + 3) len) else
  -- Decode format v5
  match consumeByte decoded i5 with
  | .error e => .error e
  | .ok (ver, i6) =>
  if ver ≠ 5 then .error (DecodeErr.badFormat ver) else
  match consumeLEint16 decoded i6 with
  | .error e => .error e
  | .ok (temp, i7) =>
  match consumeLEuint16 decoded i7 with
  | .error e => .error e
  | .ok (hum, i8) =>
  match consumeLEuint16 decoded i8 with
  | .error e => .error e
  | .ok (pres, i9) =>
  match consumeLEint16 decoded i9 with
  | .error e => .error e
  | .ok (ax, i10) =>
  match consumeLEint16 decoded i10 with
  | .error e => .error e
  | .ok (ay, i11) =>
  match consumeLEint16 decoded i11 with
  | .error e => .error e
  | .ok (az, i12) =>
  match consumeLEuint16 decoded i12 with
  | .error e => .error e
  | .ok (codedPower, i13) =>
  match consumeByte decoded i13 with
  | .error e => .error e
  | .ok (movement, i14) =>
  match consumeLEuint16 decoded i14 with
  | .error e => .error e
  | .ok (seq, i15) =>
  match consumeByte decoded i15 with
  | .error e => .error e
  | .ok (m0, i16) =>
  match consumeByte decoded i16 with
  | .error e => .error e
  | .ok (m1, i17) =>
  match consumeByte decoded i17 with
  | .error e => .error e
  | .ok (m2, i18) =>
  match consumeByte decoded i18 with
  | .error e => .error e
  | .ok (m3, i19) =>
  match consumeByte decoded i19 with
  | .error e => .error e
  | .ok (m4, i20) =>
  match consumeByte decoded i20 with
  | .error e => .error e
  | .ok (m5, _) =>
  .ok
    { Flags := (f0, f1, f2)
      Length := len
      AdType := adTy
      Manufacturer := manufacturer
      Payload := payload
      Data5 :=
        { FormatVersion := ver
          Temperature := temp
          Humidity := hum
          Pressure := pres
          AccelX := ax
          AccelY := ay
          AccelZ := az
          CodedPower := codedPower
          Voltage := (codedPower >>> 5) &&& (2 ^ 11 - 1)
          TxPower := codedPower &&& (2 ^ 5 - 1)
          MovementCounter := movement
          MeasureSequence := seq
          MacAddress := [m0, m1, m2, m3, m4, m5] } }

/-- Model of Go `encoding/hex` digit decoding: accepts `0-9`, `a-f`, `A-F`. -/
def hexDigit (c : Char) : Option Nat :=
  if '0' ≤ c ∧ c ≤ '9' then some (c.toNat - 48)
  else if 'a' ≤ c ∧ c ≤ 'f' then some (c.toNat - 87)
  else if 'A' ≤ c ∧ c ≤ 'F' then some (c.toNat - 55)
  else none

/-- Model of Go `hex.DecodeString` on the character list: pairs of hex
digits become bytes; odd length or a non-hex digit is an error. -/
def hexDecodeChars : List Char → Option (List Nat)
  | [] => some []
  | [_] => none
  | c1 :: c2 :: rest =>
    match hexDigit c1, hexDigit c2, hexDecodeChars rest with
    | some h, some l, some bs => some ((16 * h + l) :: bs)
    | _, _, _ => none

/-- Model of Go `hex.DecodeString`. -/
def hexDecode (s : String) : Option (List Nat) :=
  hexDecodeChars s.toList

/-- The source's `decodeBluetoothData`: hex-decode the string, then parse
the bytes. -/
def decodeBluetoothData (raw : String) : Except DecodeErr BluetoothAdvertisement :=
  match hexDecode raw with
  | none => .error .invalidHex
  | some decoded => decodeBytes decoded

/-! Physical-unit converters of `DataFormat5`, with Go `float64` modelled
as exact rationals. -/

def TemperatureInCelsius (d : DataFormat5) : ℚ := (d.Temperature : ℚ) * 0.005

def PressureInPa (d : DataFormat5) : ℚ := (d.Pressure : ℚ) + 50000

def HumidityInPercent (d : DataFormat5) : ℚ := (d.Humidity : ℚ) * 0.0025

def AccelXInG (d : DataFormat5) : ℚ := (d.AccelX : ℚ) / 1000

def AccelYInG (d : DataFormat5) : ℚ := (d.AccelY : ℚ) / 1000

def AccelZInG (d : DataFormat5) : ℚ := (d.AccelZ : ℚ) / 1000

def VoltageInVolts (d : DataFormat5) : ℚ := 1.6 + (d.Voltage : ℚ) / 1000

/-! Closed-form characterization of a successful decode: the advertisement
that `decodeBytes` builds from a 31-byte input, expressed by direct
indexing at the wire-format offsets. -/

/-- The `DataFormat5` record built by `decodeBytes` from input `d`,
expressed by offset. -/
def data5FromBytes (d : List Nat) : DataFormat5 where
  FormatVersion := d.getD 7 0
  Temperature := toI16 (256 * d.getD 8 0 + d.getD 9 0)
  Humidity := (256 * d.getD 10 0 + d.getD 11 0) % 65536
  Pressure := (256 * d.getD 12 0 + d.getD 13 0) % 65536
  AccelX := toI16 (256 * d.getD 14 0 + d.getD 15 0)
  AccelY := toI16 (256 * d.getD 16 0 + d.getD 17 0)
  AccelZ := toI16 (256 * d.getD 18 0 + d.getD 19 0)
  CodedPower := (256 * d.getD 20 0 + d.getD 21 0) % 65536
  Voltage := (((256 * d.getD 20 0 + d.getD 21 0) % 65536) >>> 5) &&& (2 ^ 11 - 1)
  TxPower := ((256 * d.getD 20 0 + d.getD 21 0) % 65536) &&& (2 ^ 5 - 1)
  MovementCounter := d.getD 22 0
  MeasureSequence := (256 * d.getD 23 0 + d.getD 24 0) % 65536
  MacAddress := [d.getD 25 0, d.getD 26 0, d.getD 27 0, d.getD 28 0, d.getD 29 0, d.getD 30 0]

/-- The advertisement built by `decodeBytes` from input `d`, expressed by
offset. -/
def advFromBytes (d : List Nat) : BluetoothAdvertisement where
  Flags := (d.getD 0 0, d.getD 1 0, d.getD 2 0)
  Length := d.getD 3 0
  AdType := d.getD 4 0
  Manufacturer := (d.getD 5 0 + 256 * d.getD 6 0) % 65536
  Payload := d.drop 7
  Data5 := data5FromBytes d

/-! Gateway envelope normalization (`exportGatewayInfo`). -/

/-- `GatewayTag` from the source: one entry of the gateway envelope's
per-MAC map. -/
structure GatewayTag where
  RSSI : Int
  Timestamp : Int
  Data : String
  deriving DecidableEq, Repr

/-- The per-tag display-name override: the source's
`cfgPerTag[id] != nil && cfgPerTag[id].Name != ""` logic, with the config
table modelled as a partial map from tag ID to configured name. -/
def tagDisplayName (cfg : String → Option String) (id : String) : String :=
  match cfg id with
  | some n => if n ≠ "" then n else id
  | none => id

/-- The values `exportGatewayInfo` exports for one decoded gateway entry
(one Prometheus gauge per field, keyed by name/id labels), with `float64`
modelled as `ℚ`. -/
structure GatewayReading where
  name : String
  id : String
  temperature : ℚ
  pressure : ℚ
  humidity : ℚ
  accelx : ℚ
  accely : ℚ
  accelz : ℚ
  voltage : ℚ
  txpower : ℚ
  rssi : ℚ
  dataformat : ℚ
  movementcounter : ℚ
  measurementsequencenumber : ℚ
  deriving DecidableEq, Repr

/-- The reading `exportGatewayInfo` produces for a successfully decoded
entry, mirroring the `tagMetrics[...].Set(...)` calls of the source. -/
def gatewayReadingOf (cfg : String → Option String) (macAddr : String) (tag : GatewayTag)
    (adv : BluetoothAdvertisement) : GatewayReading where
  name := tagDisplayName cfg macAddr
  id := macAddr
  temperature := TemperatureInCelsius adv.Data5
  pressure := PressureInPa adv.Data5
  humidity := HumidityInPercent adv.Data5
  accelx := AccelXInG adv.Data5
  accely := AccelYInG adv.Data5
  accelz := AccelZInG adv.Data5
  voltage := VoltageInVolts adv.Data5
  txpower := (adv.Data5.TxPower : ℚ)
  rssi := (tag.RSSI : ℚ)
  dataformat := (adv.Data5.FormatVersion : ℚ)
  movementcounter := (adv.Data5.MovementCounter : ℚ)
  measurementsequencenumber := (adv.Data5.MeasureSequence : ℚ)

/-- The source's `exportGatewayInfo` loop over the envelope's tag map
(map iteration order modelled as the list order): a tag whose data fails
to decode produces a diagnostic and is skipped (`continue`), all other
tags produce readings.  Returns (readings, diagnostics). -/
def exportGatewayInfo (cfg : String → Option String) :
    List (String × GatewayTag) → List GatewayReading × List String
  | [] => ([], [])
  | (macAddr, tag) :: rest =>
    let out := exportGatewayInfo cfg rest
    match decodeBluetoothData tag.Data with
    | .error _ => (out.1, ("unable to decode tag " ++ macAddr ++ ", data " ++ tag.Data) :: out.2)
    | .ok adv => (gatewayReadingOf cfg macAddr tag adv :: out.1, out.2)

/-! Station envelope normalization (`exportStationInfo`). -/

/-- `StationTag` from the source (the fields the export loop reads). -/
structure StationTag where
  ID : String
  Name : String
  Pressure : ℚ
  Humidity : ℚ
  Temperature : ℚ
  AccelX : ℚ
  AccelY : ℚ
  AccelZ : ℚ
  UpdateAt : String
  DataFormat : Int
  MeasurementSequenceNumber : Int
  MovementCounter : Int
  RSSI : Int
  TxPower : ℚ
  Voltage : ℚ
  deriving DecidableEq, Repr

/-- A parsed timestamp: the fields Go's `time.Parse` extracts from the
two layouts `2006-01-02T15:04:05-0700` and `2006-01-02T15:04:05-07:00`. -/
structure ParsedTime where
  year : Nat
  month : Nat
  day : Nat
  hour : Nat
  minute : Nat
  second : Nat
  negOffset : Bool
  offsetHour : Nat
  offsetMinute : Nat
  deriving DecidableEq, Repr

/-- A decimal digit, or `none`. -/
def digit (c : Char) : Option Nat :=
  if '0' ≤ c ∧ c ≤ '9' then some (c.toNat - 48) else none

/-- Two decimal digits as a number. -/
def digits2 (a b : Char) : Option Nat :=
  match digit a, digit b with
  | some x, some y => some (10 * x + y)
  | _, _ => none

/-- Four decimal digits as a number. -/
def digits4 (a b c d : Char) : Option Nat :=
  match digits2 a b, digits2 c d with
  | some x, some y => some (100 * x + y)
  | _, _ => none

/-- Builds the `ParsedTime` once the fixed layout has matched. -/
def mkParsedTime (y1 y2 y3 y4 mo1 mo2 d1 d2 h1 h2 mi1 mi2 s1 s2 sg o1 o2 o3 o4 : Char) :
    Option ParsedTime :=
  if sg = '+' ∨ sg = '-' then
    match digits4 y1 y2 y3 y4, digits2 mo1 mo2, digits2 d1 d2, digits2 h1 h2,
        digits2 mi1 mi2, digits2 s1 s2, digits2 o1 o2, digits2 o3 o4 with
    | some y, some mo, some dd, some hh, some mi, some ss, some oh, some om =>
      some ⟨y, mo, dd, hh, mi, ss, sg = '-', oh, om⟩
    | _, _, _, _, _, _, _, _ => none
  else none

/-- Model of Go `time.Parse` with layout `2006-01-02T15:04:05-0700`
(offset without colon), restricted to the fixed-width shape of the
layout: structure and digits are checked, field values are extracted. -/
def parseStationTimeNoColon (s : String) : Option ParsedTime :=
  match s.toList with
  | [y1, y2, y3, y4, '-', mo1, mo2, '-', d1, d2, 'T', h1, h2, ':', mi1, mi2, ':', s1, s2,
      sg, o1, o2, o3, o4] =>
    mkParsedTime y1 y2 y3 y4 mo1 mo2 d1 d2 h1 h2 mi1 mi2 s1 s2 sg o1 o2 o3 o4
  | _ => none

/-- Model of Go `time.Parse` with layout `2006-01-02T15:04:05-07:00`
(offset with colon). -/
def parseStationTimeColon (s : String) : Option ParsedTime :=
  match s.toList with
  | [y1, y2, y3, y4, '-', mo1, mo2, '-', d1, d2, 'T', h1, h2, ':', mi1, mi2, ':', s1, s2,
      sg, o1, o2, ':', o3, o4] =>
    mkParsedTime y1 y2 y3 y4 mo1 mo2 d1 d2 h1 h2 mi1 mi2 s1 s2 sg o1 o2 o3 o4
  | _ => none

/-- The source's timestamp loop: try the no-colon layout first, the
colon layout second, stop at the first success. -/
def parseUpdateAt (s : String) : Option ParsedTime :=
  match parseStationTimeNoColon s with
  | some t => some t
  | none => parseStationTimeColon s

/-- The values the station export loop sets for one tag: the twelve
metric gauges (selected from the tag's fields by lowercased metric name
in the source; the reflection lookup is resolved statically here) plus
the parsed update time. -/
structure StationReading where
  name : String
  id : String
  temperature : ℚ
  pressure : ℚ
  humidity : ℚ
  accelx : ℚ
  accely : ℚ
  accelz : ℚ
  voltage : ℚ
  txpower : ℚ
  rssi : ℚ
  dataformat : ℚ
  movementcounter : ℚ
  measurementsequencenumber : ℚ
  updatedAt : Option ParsedTime
  deriving DecidableEq, Repr

/-- The per-tag body of the source's `exportStationInfo`: every metric is
exported from the tag's own fields (int64 fields through `float64(...)`),
the update time only when one of the two layouts parses; on parse failure
a diagnostic is recorded and the remaining metrics are still set.
Returns (reading, diagnostics). -/
def exportStationTag (cfg : String → Option String) (tag : StationTag) :
    StationReading × List String :=
  ({ name := tagDisplayName cfg tag.ID
     id := tag.ID
     temperature := tag.Temperature
     pressure := tag.Pressure
     humidity := tag.Humidity
     accelx := tag.AccelX
     accely := tag.AccelY
     accelz := tag.AccelZ
     voltage := tag.Voltage
     txpower := tag.TxPower
     rssi := (tag.RSSI : ℚ)
     dataformat := (tag.DataFormat : ℚ)
     movementcounter := (tag.MovementCounter : ℚ)
     measurementsequencenumber := (tag.MeasurementSequenceNumber : ℚ)
     updatedAt := parseUpdateAt tag.UpdateAt },
   match parseUpdateAt tag.UpdateAt with
   | none => ["Unable to parse " ++ tag.UpdateAt]
   | some _ => [])

/-- The source's `exportStationInfo` loop over the envelope's tag list. -/
def exportStationInfo (cfg : String → Option String) (tags : List StationTag) :
    List (StationReading × List String) :=
  tags.map (exportStationTag cfg)

/-! Encoding: the byte layout of section 6 of the specification, used to
state the round-trip property.  (The source has no encoder; this is the
inverse layout of `decodeBytes`, built from the same offsets.) -/

/-- High byte of the two's-complement 16-bit encoding of `t`. -/
def encI16hi (t : Int) : Nat := (t % 65536).toNat / 256

/-- Low byte of the two's-complement 16-bit encoding of `t`. -/
def encI16lo (t : Int) : Nat := (t % 65536).toNat % 256

/-- The 24 payload bytes (format version + sensor fields) of a
`DataFormat5` sample, big-endian sensor fields. -/
def encodeData5 (s : DataFormat5) : List Nat :=
  [s.FormatVersion,
   encI16hi s.Temperature, encI16lo s.Temperature,
   s.Humidity / 256, s.Humidity % 256,
   s.Pressure / 256, s.Pressure % 256,
   encI16hi s.AccelX, encI16lo s.AccelX,
   encI16hi s.AccelY, encI16lo s.AccelY,
   encI16hi s.AccelZ, encI16lo s.AccelZ,
   s.CodedPower / 256, s.CodedPower % 256,
   s.MovementCounter,
   s.MeasureSequence / 256, s.MeasureSequence % 256] ++ s.MacAddress

/-- A full 31-byte advertisement: flags, length, AD type, little-endian
manufacturer ID, then the format-5 payload. -/
def encodeAdv (a : BluetoothAdvertisement) : List Nat :=
  [a.Flags.1, a.Flags.2.1, a.Flags.2.2, a.Length, a.AdType,
   a.Manufacturer % 256, a.Manufacturer / 256] ++ encodeData5 a.Data5

/-- Validity of an advertisement value: the structural constants required
by the wire format, field values within their 16-bit/8-bit ranges, the
power sub-fields consistent with the packed word, a 6-byte MAC, and the
payload being the encoding of the sample (the invariant `decodeBytes`
establishes). -/
def wellFormedAdv (a : BluetoothAdvertisement) : Prop :=
  a.Length = 27 ∧ a.AdType = 255 ∧ a.Manufacturer = 1177 ∧
  a.Payload = encodeData5 a.Data5 ∧
  a.Data5.FormatVersion = 5 ∧
  (-32768 ≤ a.Data5.Temperature ∧ a.Data5.Temperature < 32768) ∧
  a.Data5.Humidity < 65536 ∧
  a.Data5.Pressure < 65536 ∧
  (-32768 ≤ a.Data5.AccelX ∧ a.Data5.AccelX < 32768) ∧
  (-32768 ≤ a.Data5.AccelY ∧ a.Data5.AccelY < 32768) ∧
  (-32768 ≤ a.Data5.AccelZ ∧ a.Data5.AccelZ < 32768) ∧
  a.Data5.CodedPower < 65536 ∧
  a.Data5.Voltage = (a.Data5.CodedPower >>> 5) &&& (2 ^ 11 - 1) ∧
  a.Data5.TxPower = a.Data5.CodedPower &&& (2 ^ 5 - 1) ∧
  a.Data5.MovementCounter < 256 ∧
  a.Data5.MeasureSequence < 65536 ∧
  a.Data5.MacAddress.length = 6

/-! Concrete inputs used in witness evaluations. -/

/-- Scenario-A style 31-byte advertisement: temperature bytes 0x05 0x14,
power word 0x0004, movement 7, sequence 9, MAC 1..6. -/
def advA : List Nat :=
  [2, 1, 4, 27, 255, 153, 4, 5, 5, 20, 0, 0, 0, 0, 0, 0, 0, 0, 0, 0, 0, 4, 7, 0, 9, 1, 2, 3, 4, 5, 6]

/-- Gateway entry whose power word is 0x0004: tx-power bits = 4. -/
def tagC3 : GatewayTag where
  RSSI := -60
  Timestamp := 0
  Data := "0201041BFF9904050514000000000000000000000004000000000000000000"

/-- Empty display-name configuration. -/
def cfg0 : String → Option String := fun _ => none

/-- Gateway entry with valid data and rssi -72. -/
def tagGoodW : GatewayTag where
  RSSI := -72
  Timestamp := 1700000000
  Data := "0201041BFF9904050514000000000000000000000004070009010203040506"

/-- The byte sequence of `tagGoodW`. -/
def advGW : List Nat :=
  [2, 1, 4, 27, 255, 153, 4, 5, 5, 20, 0, 0, 0, 0, 0, 0, 0, 0, 0, 0, 0, 4, 7, 0, 9, 1, 2, 3, 4, 5, 6]

/-- Gateway entry whose one-byte payload fails to decode. -/
def tagBadW : GatewayTag where
  RSSI := -10
  Timestamp := 0
  Data := "FF"

/-- Station tag with a no-colon-offset timestamp. -/
def tagSW : StationTag where
  ID := "idA"
  Name := "Office"
  Pressure := 101325
  Humidity := 45.2
  Temperature := 21.5
  AccelX := 0
  AccelY := 0
  AccelZ := 0
  UpdateAt := "2020-04-09T15:01:59+0200"
  DataFormat := 5
  MeasurementSequenceNumber := 9
  MovementCounter := 7
  RSSI := -52
  TxPower := 4
  Voltage := 2.7

/-- Station tag with an unparsable timestamp. -/
def tagSB : StationTag where
  ID := "idB"
  Name := "Porch"
  Pressure := 99000
  Humidity := 50
  Temperature := 21.5
  AccelX := 0
  AccelY := 0
  AccelZ := 0
  UpdateAt := "not-a-time"
  DataFormat := 5
  MeasurementSequenceNumber := 1
  MovementCounter := 2
  RSSI := -60
  TxPower := 4
  Voltage := 2.9

/-- Sample with out-of-physical-range humidity 0xFFFF. -/
def s5W : DataFormat5 where
  FormatVersion := 5
  Temperature := 1300
  Humidity := 65535
  Pressure := 5000
  AccelX := 4
  AccelY := -4
  AccelZ := 1000
  CodedPower := 0
  Voltage := 0
  TxPower := 0
  MovementCounter := 0
  MeasureSequence := 0
  MacAddress := []

/-- Sample used for the round-trip witness. -/
def d5W : DataFormat5 where
  FormatVersion := 5
  Temperature := -100
  Humidity := 30000
  Pressure := 40000
  AccelX := 1
  AccelY := -2
  AccelZ := 3
  CodedPower := 1000
  Voltage := 31
  TxPower := 8
  MovementCounter := 3
  MeasureSequence := 77
  MacAddress := [10, 20, 30, 40, 50, 60]

/-- Well-formed advertisement value for the round-trip witness. -/
def advW : BluetoothAdvertisement where
  Flags := (2, 1, 4)
  Length := 27
  AdType := 255
  Manufacturer := 1177
  Payload := encodeData5 d5W
  Data5 := d5W

/-- Exact characterization of a successful byte-level decode: it succeeds
precisely on 31-byte inputs whose length, AD-type, manufacturer and
format-version fields carry the required constants, and then the result
is `advFromBytes`. -/
theorem decodeBytes_ok_iff (d : List Nat) (a : BluetoothAdvertisement) :
    decodeBytes d = .ok a ↔
      d.length = 31 ∧ d.getD 3 0 = 27 ∧ d.getD 4 0 = 255 ∧
        (d.getD 5 0 + 256 * d.getD 6 0) % 65536 = 1177 ∧ d.getD 7 0 = 5 ∧
        a = advFromBytes d := by
  constructor
  · intro h
    have hlen : d.length = 31 := by
      by_contra hne
      by_cases h7 : 7 ≤ d.length
      · have g0 : ¬ (d.length ≤ 0) := by omega
        have g1 : ¬ (d.length ≤ 1) := by omega
        have g2 : ¬ (d.length ≤ 2) := by omega
        have g3 : ¬ (d.length ≤ 3) := by omega
        have g4 : ¬ (d.length ≤ 4) := by omega
        have g5 : ¬ (d.length ≤ 5) := by omega
        have g6 : ¬ (d.length ≤ 6) := by omega
        simp only [decodeBytes, consumeByte, consumeBEuint16, g0, g1, g2, g3, g4, g5, g6,
          if_false, ite_false, List.length_drop] at h
        by_cases c1 : (d[3]?).getD 0 = 27
        · by_cases c2 : (d[4]?).getD 0 = 255
          · by_cases c3 : ((d[5]?).getD 0 + 256 * (d[6]?).getD 0) % 65536 = 1177
            · have c4 : ¬ (d.length - 7 = 24) := by omega
              simp [c1, c2, c3, c4] at h
            · simp [c1, c2, c3] at h
          · simp [c1, c2] at h
        · simp [c1] at h
      · have hl : d.length = 0 ∨ d.length = 1 ∨ d.length = 2 ∨ d.length = 3 ∨
            d.length = 4 ∨ d.length = 5 ∨ d.length = 6 := by omega
        rcases hl with hl | hl | hl | hl | hl | hl | hl <;>
            simp [decodeBytes, consumeByte, consumeBEuint16, hl] at h <;>
          split_ifs at h <;> simp_all
    refine ⟨hlen, ?_⟩
    simp only [decodeBytes, consumeByte, consumeBEuint16, consumeLEuint16, consumeLEint16,
      hlen, List.length_drop] at h
    norm_num at h
    split_ifs at h with c1 c2 c3 c4 c5 <;> try simp at h
    simp only [List.getD_eq_getElem?_getD]
    exact ⟨c1, c2, c3, c5, by
      rw [← h]
      simp only [advFromBytes, data5FromBytes, List.getD_eq_getElem?_getD]
      rfl⟩
  · rintro ⟨hlen, c1, c2, c3, c5, rfl⟩
    simp only [List.getD_eq_getElem?_getD] at c1 c2 c3 c5
    simp only [decodeBytes, consumeByte, consumeBEuint16, consumeLEuint16, consumeLEint16,
      hlen, List.length_drop]
    norm_num [c1, c2, c3, c5]
    simp only [advFromBytes, data5FromBytes, List.getD_eq_getElem?_getD]
    rw [c1, c2, c3, c5]
    norm_num

/-- Decoding the two's-complement byte pair of an in-range `Int`
recovers it. -/
theorem toI16_dec (t : Int) (h1 : -32768 ≤ t) (h2 : t < 32768) :
    toI16 (256 * encI16hi t + encI16lo t) = t := by
  unfold toI16 encI16hi encI16lo
  rw [Nat.div_add_mod]
  split <;> omega

/-- Recomposing the byte pair of a 16-bit `Nat` recovers it. -/
theorem u16_dec (n : Nat) (h : n < 65536) : (256 * (n / 256) + n % 256) % 65536 = n := by
  rw [Nat.div_add_mod]; exact Nat.mod_eq_of_lt h

/-- Reading the encoded advertisement back through the wire-format
offsets recovers a well-formed advertisement value. -/
theorem advFromBytes_encodeAdv (a : BluetoothAdvertisement) (h : wellFormedAdv a) :
    advFromBytes (encodeAdv a) = a := by
  obtain ⟨hL, hT, hM, hP, hF, hTe, hHu, hPr, hAX, hAY, hAZ, hCP, hV, hTx, hMC, hMS, hMac⟩ := h
  have e0 : (encodeAdv a).getD 0 0 = a.Flags.1 := by
    simp only [encodeAdv, encodeData5]; exact rfl
  have e1 : (encodeAdv a).getD 1 0 = a.Flags.2.1 := by
    simp only [encodeAdv, encodeData5]; exact rfl
  have e2 : (encodeAdv a).getD 2 0 = a.Flags.2.2 := by
    simp only [encodeAdv, encodeData5]; exact rfl
  have e3 : (encodeAdv a).getD 3 0 = a.Length := by
    simp only [encodeAdv, encodeData5]; exact rfl
  have e4 : (encodeAdv a).getD 4 0 = a.AdType := by
    simp only [encodeAdv, encodeData5]; exact rfl
  have e5 : (encodeAdv a).getD 5 0 = a.Manufacturer % 256 := by
    simp only [encodeAdv, encodeData5]; exact rfl
  have e6 : (encodeAdv a).getD 6 0 = a.Manufacturer / 256 := by
    simp only [encodeAdv, encodeData5]; exact rfl
  have e7 : (encodeAdv a).getD 7 0 = a.Data5.FormatVersion := by
    simp only [encodeAdv, encodeData5]; exact rfl
  have e8 : (encodeAdv a).getD 8 0 = encI16hi a.Data5.Temperature := by
    simp only [encodeAdv, encodeData5]; exact rfl
  have e9 : (encodeAdv a).getD 9 0 = encI16lo a.Data5.Temperature := by
    simp only [encodeAdv, encodeData5]; exact rfl
  have e10 : (encodeAdv a).getD 10 0 = a.Data5.Humidity / 256 := by
    simp only [encodeAdv, encodeData5]; exact rfl
  have e11 : (encodeAdv a).getD 11 0 = a.Data5.Humidity % 256 := by
    simp only [encodeAdv, encodeData5]; exact rfl
  have e12 : (encodeAdv a).getD 12 0 = a.Data5.Pressure / 256 := by
    simp only [encodeAdv, encodeData5]; exact rfl
  have e13 : (encodeAdv a).getD 13 0 = a.Data5.Pressure % 256 := by
    simp only [encodeAdv, encodeData5]; exact rfl
  have e14 : (encodeAdv a).getD 14 0 = encI16hi a.Data5.AccelX := by
    simp only [encodeAdv, encodeData5]; exact rfl
  have e15 : (encodeAdv a).getD 15 0 = encI16lo a.Data5.AccelX := by
    simp only [encodeAdv, encodeData5]; exact rfl
  have e16 : (encodeAdv a).getD 16 0 = encI16hi a.Data5.AccelY := by
    simp only [encodeAdv, encodeData5]; exact rfl
  have e17 : (encodeAdv a).getD 17 0 = encI16lo a.Data5.AccelY := by
    simp only [encodeAdv, encodeData5]; exact rfl
  have e18 : (encodeAdv a).getD 18 0 = encI16hi a.Data5.AccelZ := by
    simp only [encodeAdv, encodeData5]; exact rfl
  have e19 : (encodeAdv a).getD 19 0 = encI16lo a.Data5.AccelZ := by
    simp only [encodeAdv, encodeData5]; exact rfl
  have e20 : (encodeAdv a).getD 20 0 = a.Data5.CodedPower / 256 := by
    simp only [encodeAdv, encodeData5]; exact rfl
  have e21 : (encodeAdv a).getD 21 0 = a.Data5.CodedPower % 256 := by
    simp only [encodeAdv, encodeData5]; exact rfl
  have e22 : (encodeAdv a).getD 22 0 = a.Data5.MovementCounter := by
    simp only [encodeAdv, encodeData5]; exact rfl
  have e23 : (encodeAdv a).getD 23 0 = a.Data5.MeasureSequence / 256 := by
    simp only [encodeAdv, encodeData5]; exact rfl
  have e24 : (encodeAdv a).getD 24 0 = a.Data5.MeasureSequence % 256 := by
    simp only [encodeAdv, encodeData5]; exact rfl
  have e25 : (encodeAdv a).getD 25 0 = a.Data5.MacAddress.getD 0 0 := by
    simp only [encodeAdv, encodeData5]; exact rfl
  have e26 : (encodeAdv a).getD 26 0 = a.Data5.MacAddress.getD 1 0 := by
    simp only [encodeAdv, encodeData5]; exact rfl
  have e27 : (encodeAdv a).getD 27 0 = a.Data5.MacAddress.getD 2 0 := by
    simp only [encodeAdv, encodeData5]; exact rfl
  have e28 : (encodeAdv a).getD 28 0 = a.Data5.MacAddress.getD 3 0 := by
    simp only [encodeAdv, encodeData5]; exact rfl
  have e29 : (encodeAdv a).getD 29 0 = a.Data5.MacAddress.getD 4 0 := by
    simp only [encodeAdv, encodeData5]; exact rfl
  have e30 : (encodeAdv a).getD 30 0 = a.Data5.MacAddress.getD 5 0 := by
    simp only [encodeAdv, encodeData5]; exact rfl
  have eP : (encodeAdv a).drop 7 = encodeData5 a.Data5 := by
    simp only [encodeAdv]; exact rfl
  have eMfr : ((encodeAdv a).getD 5 0 + 256 * (encodeAdv a).getD 6 0) % 65536 = a.Manufacturer := by
    rw [e5, e6, Nat.mod_add_div, Nat.mod_eq_of_lt]
    omega
  have eMac : [a.Data5.MacAddress.getD 0 0, a.Data5.MacAddress.getD 1 0,
      a.Data5.MacAddress.getD 2 0, a.Data5.MacAddress.getD 3 0,
      a.Data5.MacAddress.getD 4 0, a.Data5.MacAddress.getD 5 0] = a.Data5.MacAddress := by
    rcases hmac : a.Data5.MacAddress with _ | ⟨m0, _ | ⟨m1, _ | ⟨m2, _ | ⟨m3, _ | ⟨m4, _ | ⟨m5, _ | ⟨m6, rest⟩⟩⟩⟩⟩⟩⟩ <;>
      simp [hmac] at hMac ⊢
  simp only [advFromBytes, data5FromBytes, e0, e1, e2, e3, e4, e7, e8, e9, e10, e11, e12, e13,
    e14, e15, e16, e17, e18, e19, e20, e21, e22, e23, e24, e25, e26, e27, e28, e29, e30,
    eP, eMfr, eMac]
  rw [u16_dec _ hHu, u16_dec _ hPr, u16_dec _ hCP, u16_dec _ hMS,
    toI16_dec _ hTe.1 hTe.2, toI16_dec _ hAX.1 hAX.2, toI16_dec _ hAY.1 hAY.2,
    toI16_dec _ hAZ.1 hAZ.2, ← hP, ← hV, ← hTx]

/-- The encoded advertisement of a well-formed value is 31 bytes. -/
theorem encodeAdv_length (a : BluetoothAdvertisement) (hMac : a.Data5.MacAddress.length = 6) :
    (encodeAdv a).length = 31 := by
  simp [encodeAdv, encodeData5, hMac]

/-- `exportGatewayInfo` distributes over envelope concatenation. -/
theorem exportGatewayInfo_append (cfg : String → Option String)
    (l1 l2 : List (String × GatewayTag)) :
    exportGatewayInfo cfg (l1 ++ l2) =
      ((exportGatewayInfo cfg l1).1 ++ (exportGatewayInfo cfg l2).1,
       (exportGatewayInfo cfg l1).2 ++ (exportGatewayInfo cfg l2).2) := by
  induction l1 with
  | nil => simp [exportGatewayInfo]
  | cons e rest ih =>
    obtain ⟨mac, tag⟩ := e
    simp only [List.cons_append, exportGatewayInfo, ih]
    cases decodeBluetoothData tag.Data <;> simp [Prod.ext_iff, ih]


/-! Claim theorems. -/

/-- C1: for every byte sequence that decodes successfully (structural
checks passed), the sensor fields temperature, humidity, pressure, the
three acceleration axes and the measurement sequence are taken from the
input as fixed-width 16-bit integers in big-endian byte order (first byte
most significant, signed fields in two's complement); in particular
temperature bytes 0x05 0x14 give raw temperature 1300 and hence 6.5
degrees Celsius after conversion. -/
theorem sensor_fields_big_endian (d : List Nat) (a : BluetoothAdvertisement)
    (hbytes : ∀ b ∈ d, b < 256) (h : decodeBytes d = .ok a) :
    a.Data5.Temperature = toI16 (256 * d.getD 8 0 + d.getD 9 0) ∧
    a.Data5.Humidity = 256 * d.getD 10 0 + d.getD 11 0 ∧
    a.Data5.Pressure = 256 * d.getD 12 0 + d.getD 13 0 ∧
    a.Data5.AccelX = toI16 (256 * d.getD 14 0 + d.getD 15 0) ∧
    a.Data5.AccelY = toI16 (256 * d.getD 16 0 + d.getD 17 0) ∧
    a.Data5.AccelZ = toI16 (256 * d.getD 18 0 + d.getD 19 0) ∧
    a.Data5.MeasureSequence = 256 * d.getD 23 0 + d.getD 24 0 ∧
    (d.getD 8 0 = 5 → d.getD 9 0 = 20 →
      a.Data5.Temperature = 1300 ∧ TemperatureInCelsius a.Data5 = 6.5) := by
  obtain ⟨hlen, -, -, -, -, rfl⟩ := (decodeBytes_ok_iff d a).mp h
  have hb : ∀ i, i < 31 → d.getD i 0 < 256 := by
    intro i hi
    have hi2 : i < d.length := by omega
    rw [List.getD_eq_getElem d 0 hi2]
    exact hbytes _ (List.getElem_mem hi2)
  have h10 := hb 10 (by omega)
  have h11 := hb 11 (by omega)
  have h12 := hb 12 (by omega)
  have h13 := hb 13 (by omega)
  have h23 := hb 23 (by omega)
  have h24 := hb 24 (by omega)
  simp only [advFromBytes, data5FromBytes]
  refine ⟨trivial, by omega, by omega, trivial, trivial, trivial, by omega, ?_⟩
  intro h8 h9
  rw [h8, h9]
  constructor
  · norm_num [toI16]
  · norm_num [TemperatureInCelsius, toI16]

/-- Witness for C1: the scenario-A advertisement decodes, its raw
temperature is 1300 and converts to 6.5 degrees Celsius. -/
theorem sensor_fields_big_endian_witness :
    decodeBytes advA = .ok (advFromBytes advA) ∧
    (advFromBytes advA).Data5.Temperature = 1300 ∧
    TemperatureInCelsius (advFromBytes advA).Data5 = 6.5 := by
  have h := sensor_fields_big_endian advA (advFromBytes advA) (by decide) (by rfl)
  exact ⟨by rfl, (h.2.2.2.2.2.2.2 (by rfl) (by rfl)).1, (h.2.2.2.2.2.2.2 (by rfl) (by rfl)).2⟩

/-- C2: for every successfully decoded advertisement, the packed 16-bit
power word is split with the 11-bit voltage field taken from the
most-significant 11 bits (the word divided by 2^5, equivalently bits
5..15) and the 5-bit tx-power field from the least-significant 5 bits
(the word modulo 2^5). -/
theorem power_word_split (d : List Nat) (a : BluetoothAdvertisement)
    (h : decodeBytes d = .ok a) :
    a.Data5.Voltage = a.Data5.CodedPower / 2 ^ 5 ∧
    a.Data5.Voltage = a.Data5.CodedPower / 2 ^ 5 % 2 ^ 11 ∧
    a.Data5.TxPower = a.Data5.CodedPower % 2 ^ 5 ∧
    a.Data5.CodedPower < 2 ^ 16 := by
  obtain ⟨hlen, -, -, -, -, rfl⟩ := (decodeBytes_ok_iff d a).mp h
  simp only [advFromBytes, data5FromBytes]
  rw [Nat.shiftRight_eq_div_pow, Nat.and_pow_two_sub_one_eq_mod, Nat.and_pow_two_sub_one_eq_mod]
  have hcp : (256 * d.getD 20 0 + d.getD 21 0) % 65536 < 65536 := Nat.mod_lt _ (by norm_num)
  refine ⟨?_, rfl, rfl, by omega⟩
  exact Nat.mod_eq_of_lt (by omega)

/-- Witness for C2: the concrete power word 0x0004 splits into
voltage bits 0 and tx-power bits 4. -/
theorem power_word_split_witness :
    (advFromBytes advA).Data5.CodedPower = 4 ∧
    (advFromBytes advA).Data5.Voltage = 4 / 2 ^ 5 ∧
    (advFromBytes advA).Data5.TxPower = 4 % 2 ^ 5 := by
  have h := power_word_split advA (advFromBytes advA) (by rfl)
  exact ⟨by rfl, h.1, h.2.2.1⟩

/-- C3 (code evaluation): the gateway export reports the raw 5-bit
tx-power field (here 4) as the txpower metric, not the documented
conversion -40 + 2 * 4 = -32 dBm. -/
theorem txpower_exported_raw :
    ((exportGatewayInfo (fun _ => none) [("AA", tagC3)]).1.map (fun r => r.txpower))
        = [(4 : ℚ)] ∧
    ((4 : ℚ) ≠ -40 + 2 * 4) := by
  constructor
  · rfl
  · norm_num

/-- C4: on a 31-byte input, each structural check fails independently
with its own error: a length byte other than 27, an AD-type byte other
than 0xFF, a little-endian manufacturer ID other than 0x0499, and a
format-version byte other than 5 each produce their distinct error (the
non-5 format version is rejected with a dedicated error, not guessed
at), conditional only on the earlier checks in the sequence passing. -/
theorem structural_checks_independent (d : List Nat) (hlen : d.length = 31) :
    (d.getD 3 0 ≠ 27 → decodeBytes d = .error (.badLength (d.getD 3 0))) ∧
    (d.getD 3 0 = 27 → d.getD 4 0 ≠ 255 →
      decodeBytes d = .error (.badAdType (d.getD 4 0))) ∧
    (d.getD 3 0 = 27 → d.getD 4 0 = 255 →
      (d.getD 5 0 + 256 * d.getD 6 0) % 65536 ≠ 1177 →
      decodeBytes d = .error (.badManufacturer ((d.getD 5 0 + 256 * d.getD 6 0) % 65536))) ∧
    (d.getD 3 0 = 27 → d.getD 4 0 = 255 →
      (d.getD 5 0 + 256 * d.getD 6 0) % 65536 = 1177 → d.getD 7 0 ≠ 5 →
      decodeBytes d = .error (.badFormat (d.getD 7 0))) := by
  simp only [List.getD_eq_getElem?_getD]
  refine ⟨?_, ?_, ?_, ?_⟩
  · intro c1
    simp only [decodeBytes, consumeByte, consumeBEuint16, consumeLEuint16, consumeLEint16,
      hlen, List.length_drop]
    norm_num
    simp [c1]
  · intro c1 c2
    simp only [decodeBytes, consumeByte, consumeBEuint16, consumeLEuint16, consumeLEint16,
      hlen, List.length_drop]
    norm_num
    simp [c1, c2]
  · intro c1 c2 c3
    simp only [decodeBytes, consumeByte, consumeBEuint16, consumeLEuint16, consumeLEint16,
      hlen, List.length_drop]
    norm_num
    simp [c1, c2, c3]
  · intro c1 c2 c3 c5
    simp only [decodeBytes, consumeByte, consumeBEuint16, consumeLEuint16, consumeLEint16,
      hlen, List.length_drop]
    norm_num
    simp [c1, c2, c3, c5]

/-- Witness for C4: four advertisements, each well-formed except for one
structural field, each rejected with the matching distinct error. -/
theorem structural_checks_independent_witness :
    decodeBytes [2, 1, 4, 28, 255, 153, 4, 5, 5, 20, 0, 0, 0, 0, 0, 0, 0, 0, 0, 0, 0, 4, 7, 0, 9, 1, 2, 3, 4, 5, 6]
        = .error (.badLength 28) ∧
    decodeBytes [2, 1, 4, 27, 0, 153, 4, 5, 5, 20, 0, 0, 0, 0, 0, 0, 0, 0, 0, 0, 0, 4, 7, 0, 9, 1, 2, 3, 4, 5, 6]
        = .error (.badAdType 0) ∧
    decodeBytes [2, 1, 4, 27, 255, 0, 4, 5, 5, 20, 0, 0, 0, 0, 0, 0, 0, 0, 0, 0, 0, 4, 7, 0, 9, 1, 2, 3, 4, 5, 6]
        = .error (.badManufacturer 1024) ∧
    decodeBytes [2, 1, 4, 27, 255, 153, 4, 6, 5, 20, 0, 0, 0, 0, 0, 0, 0, 0, 0, 0, 0, 4, 7, 0, 9, 1, 2, 3, 4, 5, 6]
        = .error (.badFormat 6) := by
  refine ⟨(structural_checks_independent _ (by rfl)).1 (by decide),
    (structural_checks_independent _ (by rfl)).2.1 (by rfl) (by decide),
    (structural_checks_independent _ (by rfl)).2.2.1 (by rfl) (by rfl) (by decide),
    (structural_checks_independent _ (by rfl)).2.2.2 (by rfl) (by rfl) (by rfl) (by decide)⟩

/-- C5: the physical-unit converters are pure total functions of the raw
sample with no clamping: temperature = raw * 0.005 C, humidity =
raw * 0.0025 percent, pressure = raw + 50000 Pa, acceleration =
raw / 1000 g per axis, voltage = 1.6 + bits/1000 V, for every raw value;
in particular raw humidity 0xFFFF converts to 163.8375 percent. -/
theorem unit_converters_pure (s : DataFormat5) :
    TemperatureInCelsius s = (s.Temperature : ℚ) * 0.005 ∧
    HumidityInPercent s = (s.Humidity : ℚ) * 0.0025 ∧
    PressureInPa s = (s.Pressure : ℚ) + 50000 ∧
    AccelXInG s = (s.AccelX : ℚ) / 1000 ∧
    AccelYInG s = (s.AccelY : ℚ) / 1000 ∧
    AccelZInG s = (s.AccelZ : ℚ) / 1000 ∧
    VoltageInVolts s = 1.6 + (s.Voltage : ℚ) / 1000 ∧
    (s.Humidity = 65535 → HumidityInPercent s = 163.8375) := by
  refine ⟨rfl, rfl, rfl, rfl, rfl, rfl, rfl, ?_⟩
  intro hh
  rw [HumidityInPercent, hh]
  norm_num

/-- Witness for C5: humidity 0xFFFF converts to 163.8375 percent without
clamping or error. -/
theorem unit_converters_pure_witness :
    HumidityInPercent s5W = 163.8375 ∧ s5W.Humidity = 65535 := by
  exact ⟨(unit_converters_pure s5W).2.2.2.2.2.2.2 (by rfl), by rfl⟩

/-- C6: a gateway entry whose payload fails to decode is skipped with one
recorded diagnostic while every other entry of the envelope still
produces its reading (readings of the siblings are exactly those of the
envelope without the bad entry), and a successfully decoded entry yields
a reading whose rssi is the envelope entry's own signal-strength field. -/
theorem gateway_bad_entry_skipped (cfg : String → Option String)
    (pre post : List (String × GatewayTag)) (mac : String) (tag : GatewayTag)
    (err : DecodeErr) (hbad : decodeBluetoothData tag.Data = .error err) :
    ((exportGatewayInfo cfg (pre ++ (mac, tag) :: post)).1 =
      (exportGatewayInfo cfg pre).1 ++ (exportGatewayInfo cfg post).1) ∧
    ((exportGatewayInfo cfg (pre ++ (mac, tag) :: post)).2.length =
      (exportGatewayInfo cfg pre).2.length + 1 + (exportGatewayInfo cfg post).2.length) ∧
    (∀ m t adv, decodeBluetoothData t.Data = .ok adv →
      exportGatewayInfo cfg ((m, t) :: post) =
        (gatewayReadingOf cfg m t adv :: (exportGatewayInfo cfg post).1,
         (exportGatewayInfo cfg post).2) ∧
      (gatewayReadingOf cfg m t adv).rssi = (t.RSSI : ℚ)) := by
  have hstep : exportGatewayInfo cfg ((mac, tag) :: post) =
      ((exportGatewayInfo cfg post).1,
       ("unable to decode tag " ++ mac ++ ", data " ++ tag.Data) ::
         (exportGatewayInfo cfg post).2) := by
    simp [exportGatewayInfo, hbad]
  rw [exportGatewayInfo_append cfg pre ((mac, tag) :: post)]
  refine ⟨?_, ?_, ?_⟩
  · rw [hstep]
  · rw [hstep]
    simp [Nat.add_comm]
    omega
  · intro m t adv hok
    constructor
    · simp [exportGatewayInfo, hok]
    · rfl

/-- Witness for C6: an envelope with one undecodable entry and one good
entry produces exactly the good entry's reading plus one diagnostic, and
the reading's rssi is the envelope entry's -72. -/
theorem gateway_bad_entry_skipped_witness :
    (exportGatewayInfo cfg0 [("AA", tagBadW), ("BB", tagGoodW)]).1 =
      (exportGatewayInfo cfg0 []).1 ++ (exportGatewayInfo cfg0 [("BB", tagGoodW)]).1 ∧
    (exportGatewayInfo cfg0 [("AA", tagBadW), ("BB", tagGoodW)]).2.length = 1 ∧
    (gatewayReadingOf cfg0 "BB" tagGoodW (advFromBytes advGW)).rssi = (-72 : ℚ) := by
  have h := gateway_bad_entry_skipped cfg0 [] [("BB", tagGoodW)] "AA" tagBadW
    (.truncated 1) (by rfl)
  refine ⟨h.1, ?_, ?_⟩
  · have h21 := h.2.1
    simp only [List.nil_append] at h21
    rw [h21]
    rfl
  · exact (h.2.2 "BB" tagGoodW (advFromBytes advGW) (by rfl)).2

/-- C7: the station update timestamp is parsed by trying the
no-colon-offset layout first and the colon-offset layout second; when
neither matches, the reading's updatedAt is absent and a diagnostic is
recorded, while every other metric of the reading is still produced from
the tag's fields. -/
theorem station_timestamp_fallback (cfg : String → Option String) (tag : StationTag) :
    ((exportStationTag cfg tag).1.updatedAt = parseUpdateAt tag.UpdateAt) ∧
    (∀ t, parseStationTimeNoColon tag.UpdateAt = some t → parseUpdateAt tag.UpdateAt = some t) ∧
    (parseStationTimeNoColon tag.UpdateAt = none →
      parseUpdateAt tag.UpdateAt = parseStationTimeColon tag.UpdateAt) ∧
    (parseUpdateAt tag.UpdateAt = none →
      (exportStationTag cfg tag).1.updatedAt = none ∧
      (exportStationTag cfg tag).2 = ["Unable to parse " ++ tag.UpdateAt]) ∧
    ((exportStationTag cfg tag).1.temperature = tag.Temperature ∧
     (exportStationTag cfg tag).1.pressure = tag.Pressure ∧
     (exportStationTag cfg tag).1.humidity = tag.Humidity ∧
     (exportStationTag cfg tag).1.accelx = tag.AccelX ∧
     (exportStationTag cfg tag).1.accely = tag.AccelY ∧
     (exportStationTag cfg tag).1.accelz = tag.AccelZ ∧
     (exportStationTag cfg tag).1.voltage = tag.Voltage ∧
     (exportStationTag cfg tag).1.txpower = tag.TxPower ∧
     (exportStationTag cfg tag).1.rssi = (tag.RSSI : ℚ) ∧
     (exportStationTag cfg tag).1.dataformat = (tag.DataFormat : ℚ) ∧
     (exportStationTag cfg tag).1.movementcounter = (tag.MovementCounter : ℚ) ∧
     (exportStationTag cfg tag).1.measurementsequencenumber =
       (tag.MeasurementSequenceNumber : ℚ)) := by
  refine ⟨rfl, ?_, ?_, ?_,
    rfl, rfl, rfl, rfl, rfl, rfl, rfl, rfl, rfl, rfl, rfl, rfl⟩
  · intro t ht; simp [parseUpdateAt, ht]
  · intro hn; simp [parseUpdateAt, hn]
  · intro hn
    refine ⟨hn, ?_⟩
    simp only [exportStationTag, hn]

/-- Witness for C7: a no-colon timestamp parses via the first layout; an
unparsable timestamp leaves updatedAt absent, records one diagnostic, and
the temperature metric is still produced. -/
theorem station_timestamp_fallback_witness :
    parseUpdateAt "2020-04-09T15:01:59+0200"
        = some ⟨2020, 4, 9, 15, 1, 59, false, 2, 0⟩ ∧
    (exportStationTag cfg0 tagSB).1.updatedAt = none ∧
    (exportStationTag cfg0 tagSB).2 = ["Unable to parse not-a-time"] ∧
    (exportStationTag cfg0 tagSB).1.temperature = 21.5 := by
  have h1 := station_timestamp_fallback cfg0 tagSW
  have h2 := station_timestamp_fallback cfg0 tagSB
  have hb := h2.2.2.2.1 (by rfl)
  refine ⟨h1.2.1 ⟨2020, 4, 9, 15, 1, 59, false, 2, 0⟩ (by rfl), hb.1, hb.2, ?_⟩
  exact h2.2.2.2.2.1

/-- C8: decode never reads out of bounds: every successful byte read is
at an in-range index (and reads exactly the input byte there), a
successful decode forces the input to be exactly 31 bytes, and any other
length yields an error (no partial result). -/
theorem decode_bounds_safe (d : List Nat) :
    (∀ i b j, consumeByte d i = .ok (b, j) → i < d.length ∧ b = d.getD i 0 ∧ j = i + 1) ∧
    (∀ a, decodeBytes d = .ok a → d.length = 31) ∧
    (d.length ≠ 31 → ∃ e, decodeBytes d = .error e) := by
  refine ⟨?_, ?_, ?_⟩
  · intro i b j hc
    unfold consumeByte at hc
    split at hc
    · exact absurd hc (by simp)
    · next hlt =>
      obtain ⟨hb, hj⟩ := by simpa using hc
      exact ⟨by omega, by rw [List.getD_eq_getElem?_getD]; exact hb.symm, hj.symm⟩
  · intro a ha
    exact ((decodeBytes_ok_iff d a).mp ha).1
  · intro hne
    cases hd : decodeBytes d with
    | ok a => exact absurd ((decodeBytes_ok_iff d a).mp hd).1 hne
    | error e => exact ⟨e, rfl⟩

/-- Witness for C8: the 31-byte example decodes (so its length is 31 by
the theorem), and its 5-byte prefix is rejected with a truncation error. -/
theorem decode_bounds_safe_witness :
    advA.length = 31 ∧ (advA.take 5).length ≠ 31 ∧
    decodeBytes (advA.take 5) = .error (.truncated 5) := by
  refine ⟨(decode_bounds_safe advA).2.1 (advFromBytes advA) (by rfl), by decide, by rfl⟩

/-- C9: encoding a valid advertisement value into its 31-byte wire form
(section-6 layout with the required length/type/manufacturer/format
constants) and decoding that byte sequence returns exactly the original
advertisement. -/
theorem decode_encode_roundtrip (a : BluetoothAdvertisement) (h : wellFormedAdv a) :
    decodeBytes (encodeAdv a) = .ok a := by
  have hadv := advFromBytes_encodeAdv a h
  obtain ⟨hL, hT, hM, hP, hF, hTe, hHu, hPr, hAX, hAY, hAZ, hCP, hV, hTx, hMC, hMS, hMac⟩ := h
  rw [decodeBytes_ok_iff]
  have e3 : (encodeAdv a).getD 3 0 = a.Length := by
    simp only [encodeAdv, encodeData5]; exact rfl
  have e4 : (encodeAdv a).getD 4 0 = a.AdType := by
    simp only [encodeAdv, encodeData5]; exact rfl
  have e5 : (encodeAdv a).getD 5 0 = a.Manufacturer % 256 := by
    simp only [encodeAdv, encodeData5]; exact rfl
  have e6 : (encodeAdv a).getD 6 0 = a.Manufacturer / 256 := by
    simp only [encodeAdv, encodeData5]; exact rfl
  have e7 : (encodeAdv a).getD 7 0 = a.Data5.FormatVersion := by
    simp only [encodeAdv, encodeData5]; exact rfl
  refine ⟨encodeAdv_length a hMac, by rw [e3, hL], by rw [e4, hT], ?_, by rw [e7, hF],
    hadv.symm⟩
  rw [e5, e6, Nat.mod_add_div, hM]

/-- Witness for C9: a concrete valid advertisement round-trips through
encode and decode. -/
theorem decode_encode_roundtrip_witness :
    wellFormedAdv advW ∧ decodeBytes (encodeAdv advW) = .ok advW := by
  have hwf : wellFormedAdv advW := by
    refine ⟨rfl, rfl, rfl, rfl, rfl, by decide, by decide, by decide, by decide, by decide,
      by decide, by decide, by decide, by decide, by decide, by decide, by decide⟩
  exact ⟨hwf, decode_encode_roundtrip advW hwf⟩

/-- C10: for every successful decode the voltage field is strictly below
2^11 and the tx-power field strictly below 2^5, so the converted battery
voltage lies in the interval [1.6, 3.647] volts. -/
theorem power_subfields_bounded (d : List Nat) (a : BluetoothAdvertisement)
    (h : decodeBytes d = .ok a) :
    a.Data5.Voltage < 2 ^ 11 ∧ a.Data5.TxPower < 2 ^ 5 ∧
    (1.6 : ℚ) ≤ VoltageInVolts a.Data5 ∧ VoltageInVolts a.Data5 ≤ 3.647 := by
  obtain ⟨hlen, -, -, -, -, rfl⟩ := (decodeBytes_ok_iff d a).mp h
  have hV : (advFromBytes d).Data5.Voltage ≤ 2047 := Nat.and_le_right
  have hT : (advFromBytes d).Data5.TxPower ≤ 31 := Nat.and_le_right
  refine ⟨by omega, by omega, ?_, ?_⟩
  · have hnn : (0 : ℚ) ≤ ((advFromBytes d).Data5.Voltage : ℚ) := by positivity
    simp only [VoltageInVolts]
    nlinarith
  · have hle : ((advFromBytes d).Data5.Voltage : ℚ) ≤ 2047 := by exact_mod_cast hV
    simp only [VoltageInVolts]
    nlinarith

/-- Witness for C10: the example advertisement's voltage bits are below
2^11 and its converted battery voltage lies in [1.6, 3.647]. -/
theorem power_subfields_bounded_witness :
    (advFromBytes advA).Data5.Voltage < 2 ^ 11 ∧ (advFromBytes advA).Data5.TxPower < 2 ^ 5 ∧
    (1.6 : ℚ) ≤ VoltageInVolts (advFromBytes advA).Data5 ∧
    VoltageInVolts (advFromBytes advA).Data5 ≤ 3.647 := by
  exact power_subfields_bounded advA (advFromBytes advA) (by rfl)

end Ruuvi
